import Mathlib

/-
Verification of the like → match → notification pipeline of a dating-app
backend (SQL triggers in the schema migrations) together with the two
client-side functions the claims mention (the discovery screen
`fetchProfiles`/`handleLike` and the in-app banner fanout of
`NotificationContext`).

Modelling conventions:
* SQL `text` is a sequence of characters (`List Char`), so that
  `LEFT(c, 50)` is `List.take 50 c` and `LENGTH(c)` is `List.length c`.
* A nullable SQL value is an `Option`; `x || y` string concatenation
  propagates NULL, and inserting NULL into a NOT NULL column raises
  `DbError.notNullViolation`.
* `uuid`s are `Nat`s (`LEAST`/`GREATEST` become `Nat.min`/`Nat.max`); fresh
  ids are drawn from a counter `nextId` in the database state.
* A row-level AFTER INSERT trigger runs after its row is in the table, and
  queries inside the trigger see that row (PostgreSQL AFTER-trigger data
  visibility); several AFTER INSERT triggers on one table fire in
  alphabetical order of trigger name, so `create_match_trigger` runs before
  `like_notification_trigger`.
* A failing statement inside a trigger aborts the whole enclosing
  transaction: the transition functions return `Except DbError DbState`,
  and an `error` outcome leaves the pre-state in place (rollback).
-/

namespace DatingApp

/-- SQL text values, modelled as sequences of characters. -/
abbrev Text := List Char

/-- Row of the `profiles` table (`first_name text NOT NULL`); only the
columns read by the verified logic are modelled. -/
structure ProfileRow where
  id : Nat
  first_name : Text
deriving DecidableEq

/-- Row of the `likes` table. -/
structure LikeRow where
  id : Nat
  liker_id : Nat
  liked_id : Nat
  is_super_like : Bool
deriving DecidableEq

/-- Row of the `matches` table. -/
structure MatchRow where
  id : Nat
  user1_id : Nat
  user2_id : Nat
deriving DecidableEq

/-- Row of the `messages` table. -/
structure MessageRow where
  id : Nat
  match_id : Nat
  sender_id : Nat
  content : Text
deriving DecidableEq

/-- Row of the `notifications` table; `data` is the jsonb payload, a map
from string keys to uuid values. -/
structure NotificationRow where
  id : Nat
  user_id : Nat
  ntype : Text
  title : Text
  message : Text
  data : List (String × Nat)
deriving DecidableEq

/-- Errors a SQL statement can raise in the modelled fragment. -/
inductive DbError where
  | uniqueViolation
  | notNullViolation
deriving DecidableEq

/-- The database state: the five tables touched by the pipeline plus the
fresh-id counter. -/
structure DbState where
  profiles : List ProfileRow
  likes : List LikeRow
  «matches» : List MatchRow
  messages : List MessageRow
  notifications : List NotificationRow
  nextId : Nat
deriving DecidableEq

/-- SELECT first_name FROM profiles WHERE id = uid; NULL (`none`) when the
row is missing. -/
def lookupFirstName (profiles : List ProfileRow) (uid : Nat) : Option Text :=
  (profiles.find? (fun p => p.id == uid)).map (fun p => p.first_name)

/-- The `create_notification(p_user_id, p_type, p_title, p_message, p_data)`
SQL function: INSERT INTO notifications. The `message` column is NOT NULL,
so a NULL message raises a constraint violation that aborts the enclosing
transaction. -/
def create_notification (s : DbState) (p_user_id : Nat) (p_type p_title : Text)
    (p_message : Option Text) (p_data : List (String × Nat)) :
    Except DbError DbState :=
  match p_message with
  | none => .error .notNullViolation
  | some m =>
      .ok { s with
        notifications :=
          s.notifications ++ [⟨s.nextId, p_user_id, p_type, p_title, m, p_data⟩],
        nextId := s.nextId + 1 }

/-- The `create_like_notification()` trigger function (AFTER INSERT ON
likes): looks up the name of the liker (NULL if the profile is missing), builds
title/message per the super-like flag, and inserts one notification for the
liked user. NULL name makes the message NULL, so `create_notification`
raises. -/
def create_like_notification (s : DbState) (new : LikeRow) : Except DbError DbState :=
  let liker_name := lookupFirstName s.profiles new.liker_id
  let notification_title :=
    if new.is_super_like then "Super Like!".toList else "New Like!".toList
  let notification_message := liker_name.map (fun n =>
    n ++ (if new.is_super_like then " super liked you!".toList else " liked you!".toList))
  create_notification s new.liked_id
    (if new.is_super_like then "super_like".toList else "like".toList)
    notification_title notification_message
    [("user_id", new.liker_id), ("like_id", new.id)]

/-- The `create_match_notification()` trigger function (AFTER INSERT ON
matches): one notification per participant, each naming the other. -/
def create_match_notification (s : DbState) (new : MatchRow) : Except DbError DbState :=
  let user1_name := lookupFirstName s.profiles new.user1_id
  let user2_name := lookupFirstName s.profiles new.user2_id
  match create_notification s new.user1_id "match".toList "It\x27s a Match! 🎉".toList
      (user2_name.map (fun n => "You and ".toList ++ n ++ " liked each other!".toList))
      [("match_id", new.id), ("other_user_id", new.user2_id)] with
  | .error e => .error e
  | .ok s1 =>
      create_notification s1 new.user2_id "match".toList "It\x27s a Match! 🎉".toList
        (user1_name.map (fun n => "You and ".toList ++ n ++ " liked each other!".toList))
        [("match_id", new.id), ("other_user_id", new.user1_id)]

/-- The `create_message_notification()` trigger function (AFTER INSERT ON
messages): resolves the match; the receiver is user2 when user1 is the
sender and user1 otherwise (no check that the sender is a participant); the
message text is the name of the sender, a colon, and the first 50 characters of
the content with an ellipsis iff the content is longer than 50. When the
match row is absent, the receiver is NULL and the insert raises. -/
def create_message_notification (s : DbState) (new : MessageRow) : Except DbError DbState :=
  let match_record := s.matches.find? (fun m => m.id == new.match_id)
  let receiver_id : Option Nat :=
    match match_record with
    | some m => if m.user1_id = new.sender_id then some m.user2_id else some m.user1_id
    | none => none
  let sender_name := lookupFirstName s.profiles new.sender_id
  let notification_message := sender_name.map (fun n =>
    n ++ ": ".toList ++ new.content.take 50 ++
      (if new.content.length > 50 then "...".toList else "".toList))
  match receiver_id with
  | none => .error .notNullViolation
  | some r =>
      create_notification s r "message".toList "New Message".toList
        notification_message
        [("match_id", new.match_id), ("sender_id", new.sender_id), ("message_id", new.id)]

/-- INSERT INTO matches ... ON CONFLICT (user1_id, user2_id) DO NOTHING, as
issued by `create_match_on_mutual_like`, including the AFTER INSERT
`match_notification_trigger` that fires exactly when a row was inserted. -/
def insertMatchWithTrigger (s : DbState) (u1 u2 : Nat) : Except DbError DbState :=
  if ∃ m ∈ s.matches, m.user1_id = u1 ∧ m.user2_id = u2 then
    .ok s
  else
    let row : MatchRow := ⟨s.nextId, u1, u2⟩
    create_match_notification
      { s with «matches» := s.matches ++ [row], nextId := s.nextId + 1 } row

/-- The `create_match_on_mutual_like()` trigger function (AFTER INSERT ON
likes, fired on the state that already contains the new like row): if a
reciprocal like exists, insert the canonically ordered match with
conflict-ignore. -/
def create_match_on_mutual_like (s : DbState) (new : LikeRow) : Except DbError DbState :=
  if ∃ l ∈ s.likes, l.liker_id = new.liked_id ∧ l.liked_id = new.liker_id then
    insertMatchWithTrigger s (Nat.min new.liker_id new.liked_id)
      (Nat.max new.liker_id new.liked_id)
  else
    .ok s

/-- The like write of the client (`handleLike` / `handleAcceptFriendRequest`):
INSERT INTO likes ... ON CONFLICT (liker_id, liked_id) DO UPDATE. On
conflict only the `is_super_like` flag of the existing row is updated and no INSERT
trigger fires; on a fresh insert the row is added and the two AFTER INSERT
triggers fire in name order (`create_match_trigger`, then
`like_notification_trigger`). -/
def upsertLikeTx (s : DbState) (liker liked : Nat) (sup : Bool) : Except DbError DbState :=
  if ∃ l ∈ s.likes, l.liker_id = liker ∧ l.liked_id = liked then
    .ok { s with
      likes := s.likes.map (fun l =>
        if l.liker_id = liker ∧ l.liked_id = liked then
          { l with is_super_like := sup } else l) }
  else
    let row : LikeRow := ⟨s.nextId, liker, liked, sup⟩
    let s1 := { s with likes := s.likes ++ [row], nextId := s.nextId + 1 }
    match create_match_on_mutual_like s1 row with
    | .error e => .error e
    | .ok s2 => create_like_notification s2 row

/-- DELETE FROM likes WHERE liker_id = .. AND liked_id = .. (no trigger is
registered for deletes). -/
def deleteLike (s : DbState) (liker liked : Nat) : DbState :=
  { s with likes := s.likes.filter (fun l =>
      !(l.liker_id == liker && l.liked_id == liked)) }

/-- INSERT INTO messages, followed by the AFTER INSERT
`message_notification_trigger`. -/
def insertMessageTx (s : DbState) (mid sender : Nat) (content : Text) :
    Except DbError DbState :=
  let row : MessageRow := ⟨s.nextId, mid, sender, content⟩
  create_message_notification
    { s with messages := s.messages ++ [row], nextId := s.nextId + 1 } row

/-- INSERT INTO profiles (id is the identity subject and is unique). -/
def insertProfileTx (s : DbState) (p : ProfileRow) : Except DbError DbState :=
  if ∃ q ∈ s.profiles, q.id = p.id then .error .uniqueViolation
  else .ok { s with profiles := s.profiles ++ [p] }

/-- The write operations the clients can issue against the modelled tables. -/
inductive Event where
  | likeUpsert (liker liked : Nat) (sup : Bool)
  | likeDelete (liker liked : Nat)
  | messageInsert (mid sender : Nat) (content : Text)
  | profileInsert (p : ProfileRow)

/-- The transaction a single event runs. -/
def txOfEvent (s : DbState) : Event → Except DbError DbState
  | .likeUpsert liker liked sup => upsertLikeTx s liker liked sup
  | .likeDelete liker liked => .ok (deleteLike s liker liked)
  | .messageInsert mid sender content => insertMessageTx s mid sender content
  | .profileInsert p => insertProfileTx s p

/-- Commit on success, roll back (keep the pre-state) on error. -/
def applyEvent (s : DbState) (e : Event) : DbState :=
  match txOfEvent s e with
  | .ok s' => s'
  | .error _ => s

/-- The empty database. -/
def initState : DbState := ⟨[], [], [], [], [], 0⟩

/-- The database state after a sequence of client events. -/
def run (es : List Event) : DbState := es.foldl applyEvent initState

/-- A directed like row for the ordered pair (a, b) is present in `L`. -/
def likeExistsIn (L : List LikeRow) (a b : Nat) : Prop :=
  ∃ l ∈ L, l.liker_id = a ∧ l.liked_id = b

/-- A directed like row for the ordered pair (a, b) is present in `s`. -/
abbrev likeExists (s : DbState) (a b : Nat) : Prop := likeExistsIn s.likes a b

instance (L : List LikeRow) (a b : Nat) : Decidable (likeExistsIn L a b) := by
  unfold likeExistsIn; infer_instance

/-- The match rows for the unordered pair {a, b}. -/
def matchesForPair (s : DbState) (a b : Nat) : List MatchRow :=
  s.matches.filter (fun m =>
    (m.user1_id == a && m.user2_id == b) || (m.user1_id == b && m.user2_id == a))

/-- The ordered key of a like row, unique by the likes-table
UNIQUE(liker_id, liked_id). -/
def likeKey (l : LikeRow) : Nat × Nat := (l.liker_id, l.liked_id)

/-- The ordered key of a match row, unique by the matches-table
UNIQUE(user1_id, user2_id). -/
def matchKey (m : MatchRow) : Nat × Nat := (m.user1_id, m.user2_id)

/-- Invariant of reachable database states: matches are canonically ordered
and key-unique, likes are key-unique, and every mutual pair of likes has a
canonical match row. -/
def Inv (s : DbState) : Prop :=
  (∀ m ∈ s.matches, m.user1_id ≤ m.user2_id) ∧
  s.matches.Pairwise (fun m1 m2 => matchKey m1 ≠ matchKey m2) ∧
  s.likes.Pairwise (fun l1 l2 => likeKey l1 ≠ likeKey l2) ∧
  ∀ a b, likeExists s a b → likeExists s b a →
    ∃ m ∈ s.matches, m.user1_id = Nat.min a b ∧ m.user2_id = Nat.max a b

/-- The discovery-screen `fetchProfiles`: collect the ids the user has
already liked, select profiles with id ≠ user, exclude the liked ids when
that list is non-empty, and take the first 10. -/
def fetchProfiles (s : DbState) (uid : Nat) : List ProfileRow :=
  let likedIds := (s.likes.filter (fun l => l.liker_id == uid)).map (fun l => l.liked_id)
  let base := s.profiles.filter (fun p => p.id != uid)
  let filtered :=
    if likedIds.length > 0 then base.filter (fun p => !(likedIds.contains p.id)) else base
  filtered.take 10

/-- JavaScript `x || d` on an optional string: `undefined`/`null` and the
empty string are falsy. -/
def jsOrElse (o : Option Text) (d : Text) : Text :=
  match o with
  | some n => if n = [] then d else n
  | none => d

/-- The client-side banner fanout for an incoming like
(`NotificationContext`, likes subscription): the displayed message text. -/
def clientLikeBannerMessage (first_name : Option Text) (is_super : Bool) : Text :=
  jsOrElse first_name "Someone".toList ++ " ".toList ++
    (if is_super then "super liked".toList else "liked".toList) ++ " you!".toList

/-! Concrete states and event sequences used to instantiate the theorems. -/

/-- Two profiles, a like in each direction. -/
def exC1events : List Event :=
  [.profileInsert ⟨1, "Ann".toList⟩, .profileInsert ⟨2, "Ben".toList⟩,
   .likeUpsert 1 2 false, .likeUpsert 2 1 false]

/-- A state that already holds the canonical match for the pair {1, 2}. -/
def exC2state : DbState := ⟨[], [], [⟨0, 1, 2⟩], [], [], 5⟩

/-- A like of user 2 for user 1, arriving when the match already exists. -/
def exC2like : LikeRow := ⟨6, 2, 1, false⟩

/-- Two named profiles and empty tables. -/
def exC3state : DbState :=
  ⟨[⟨1, "Ava".toList⟩, ⟨2, "Bob".toList⟩], [], [], [], [], 0⟩

/-- Two named profiles for a match fanout. -/
def exC4state : DbState :=
  ⟨[⟨3, "Cara".toList⟩, ⟨4, "Dan".toList⟩], [], [], [], [], 20⟩

/-- A match row between the two profiles of `exC4state`. -/
def exC4match : MatchRow := ⟨19, 3, 4⟩

/-- Two named profiles and a match between them. -/
def exC5state : DbState :=
  ⟨[⟨1, "Eli".toList⟩, ⟨2, "Fay".toList⟩], [], [⟨0, 1, 2⟩], [], [], 30⟩

/-- A message body longer than 50 characters. -/
def exC5content : Text :=
  "Hello there, this is a moderately long greeting that exceeds fifty characters".toList

/-- Three named profiles; a match between users 1 and 2 only. -/
def exC6state : DbState :=
  ⟨[⟨1, "Gia".toList⟩, ⟨2, "Hal".toList⟩, ⟨3, "Ivy".toList⟩], [], [⟨0, 1, 2⟩], [], [], 40⟩

/-- A single named profile, for a self-like. -/
def exC8state : DbState := ⟨[⟨7, "Gil".toList⟩], [], [], [], [], 0⟩

/-- The state right after the self-like row of user 7 was inserted, as the
AFTER INSERT trigger sees it. -/
def exC8postInsert : DbState :=
  ⟨[⟨7, "Gil".toList⟩], [⟨0, 7, 7, false⟩], [], [], [], 1⟩

/-- Two profiles and one like, after which the liker repeats the like. -/
def exC9events : List Event :=
  [.profileInsert ⟨1, "Jay".toList⟩, .profileInsert ⟨2, "Kim".toList⟩,
   .likeUpsert 1 2 false]

/-- Three profiles; user 1 has already liked user 2. -/
def exC10state : DbState :=
  ⟨[⟨1, "Uma".toList⟩, ⟨2, "Vic".toList⟩, ⟨3, "Wes".toList⟩],
   [⟨0, 1, 2, false⟩], [], [], [], 50⟩

section HelperLemmas

/-- An inserted notification changes only the notifications table (and the
id counter). -/
lemma create_notification_ok_fields {s s' : DbState} {u : Nat} {ty ti : Text}
    {msg : Option Text} {d : List (String × Nat)}
    (h : create_notification s u ty ti msg d = .ok s') :
    s'.profiles = s.profiles ∧ s'.likes = s.likes ∧ s'.matches = s.matches := by
  cases msg with
  | none => exact absurd h (by simp [create_notification])
  | some m =>
    simp only [create_notification, Except.ok.injEq] at h
    subst h
    exact ⟨rfl, rfl, rfl⟩

/-- The like-notification trigger changes only the notifications table. -/
lemma create_like_notification_ok_fields {s s' : DbState} {new : LikeRow}
    (h : create_like_notification s new = .ok s') :
    s'.profiles = s.profiles ∧ s'.likes = s.likes ∧ s'.matches = s.matches := by
  unfold create_like_notification at h
  exact create_notification_ok_fields h

/-- The match-notification trigger changes only the notifications table. -/
lemma create_match_notification_ok_fields {s s' : DbState} {new : MatchRow}
    (h : create_match_notification s new = .ok s') :
    s'.profiles = s.profiles ∧ s'.likes = s.likes ∧ s'.matches = s.matches := by
  simp only [create_match_notification] at h
  split at h
  · exact absurd h (by simp)
  · next s1 heq =>
      obtain ⟨p1, l1, m1⟩ := create_notification_ok_fields heq
      obtain ⟨p2, l2, m2⟩ := create_notification_ok_fields h
      exact ⟨p2.trans p1, l2.trans l1, m2.trans m1⟩

/-- The message-notification trigger changes only the notifications table. -/
lemma create_message_notification_ok_fields {s s' : DbState} {new : MessageRow}
    (h : create_message_notification s new = .ok s') :
    s'.profiles = s.profiles ∧ s'.likes = s.likes ∧ s'.matches = s.matches := by
  simp only [create_message_notification] at h
  cases hfind : s.matches.find? (fun m => m.id == new.match_id) with
  | none =>
      rw [hfind] at h
      exact absurd h (by simp)
  | some m =>
      rw [hfind] at h
      dsimp only at h
      by_cases hu : m.user1_id = new.sender_id
      · rw [if_pos hu] at h
        exact create_notification_ok_fields h
      · rw [if_neg hu] at h
        exact create_notification_ok_fields h

/-- Outcome analysis of the conflict-ignoring match insert: either the
canonical pair was already present and the state is unchanged, or the new
row was appended. Profiles and likes are untouched either way. -/
lemma insertMatchWithTrigger_ok {s s' : DbState} {u1 u2 : Nat}
    (h : insertMatchWithTrigger s u1 u2 = .ok s') :
    s'.profiles = s.profiles ∧ s'.likes = s.likes ∧
    ((∃ m ∈ s.matches, m.user1_id = u1 ∧ m.user2_id = u2) ∧ s'.matches = s.matches ∨
     ¬(∃ m ∈ s.matches, m.user1_id = u1 ∧ m.user2_id = u2) ∧
       s'.matches = s.matches ++ [⟨s.nextId, u1, u2⟩]) := by
  unfold insertMatchWithTrigger at h
  split at h
  · next hc =>
      simp only [Except.ok.injEq] at h
      subst h
      exact ⟨rfl, rfl, .inl ⟨hc, rfl⟩⟩
  · next hc =>
      obtain ⟨hp, hl, hm⟩ := create_match_notification_ok_fields h
      exact ⟨hp, hl, .inr ⟨hc, hm⟩⟩

/-- Outcome analysis of the match deriver run on the post-insert state: the
matches table is unchanged (and, when a reciprocal like is present, already
holds the canonical match), or a reciprocal like is present and the fresh
canonical match row was appended. -/
lemma create_match_on_mutual_like_ok {s s' : DbState} {nl : LikeRow}
    (h : create_match_on_mutual_like s nl = .ok s') :
    s'.profiles = s.profiles ∧ s'.likes = s.likes ∧
    ((s'.matches = s.matches ∧
       (likeExistsIn s.likes nl.liked_id nl.liker_id →
         ∃ m ∈ s.matches, m.user1_id = Nat.min nl.liker_id nl.liked_id ∧
           m.user2_id = Nat.max nl.liker_id nl.liked_id)) ∨
     (likeExistsIn s.likes nl.liked_id nl.liker_id ∧
       ¬(∃ m ∈ s.matches, m.user1_id = Nat.min nl.liker_id nl.liked_id ∧
           m.user2_id = Nat.max nl.liker_id nl.liked_id) ∧
       s'.matches = s.matches ++
         [⟨s.nextId, Nat.min nl.liker_id nl.liked_id, Nat.max nl.liker_id nl.liked_id⟩])) := by
  unfold create_match_on_mutual_like at h
  split at h
  · next hc =>
      obtain ⟨hp, hl, hcase⟩ := insertMatchWithTrigger_ok h
      rcases hcase with ⟨hex, hm⟩ | ⟨hnex, hm⟩
      · exact ⟨hp, hl, .inl ⟨hm, fun _ => hex⟩⟩
      · exact ⟨hp, hl, .inr ⟨hc, hnex, hm⟩⟩
  · next hc =>
      simp only [Except.ok.injEq] at h
      subst h
      exact ⟨rfl, rfl, .inl ⟨rfl, fun hx => absurd hx hc⟩⟩

/-- Appending one like row to the table adds exactly the new ordered pair. -/
lemma likeExistsIn_append_single (L : List LikeRow) (r : LikeRow) (a b : Nat) :
    likeExistsIn (L ++ [r]) a b ↔
      likeExistsIn L a b ∨ (r.liker_id = a ∧ r.liked_id = b) := by
  unfold likeExistsIn
  constructor
  · rintro ⟨l, hl, h1, h2⟩
    rcases List.mem_append.1 hl with hL | hr
    · exact .inl ⟨l, hL, h1, h2⟩
    · rcases List.mem_singleton.1 hr with rfl
      exact .inr ⟨h1, h2⟩
  · rintro (⟨l, hl, h1, h2⟩ | ⟨h1, h2⟩)
    · exact ⟨l, List.mem_append_left _ hl, h1, h2⟩
    · exact ⟨r, List.mem_append_right _ (List.mem_singleton_self r), h1, h2⟩

/-- The conflict-arm update of the upsert (flipping `is_super_like`) does
not change which ordered pairs are present. -/
lemma likeExistsIn_map_flag (L : List LikeRow) (A B : Nat) (sup : Bool) (a b : Nat) :
    likeExistsIn (L.map (fun l =>
      if l.liker_id = A ∧ l.liked_id = B then { l with is_super_like := sup } else l)) a b ↔
    likeExistsIn L a b := by
  unfold likeExistsIn
  constructor
  · rintro ⟨l, hl, h1, h2⟩
    obtain ⟨x, hx, hfx⟩ := List.mem_map.1 hl
    by_cases hc : x.liker_id = A ∧ x.liked_id = B
    · rw [if_pos hc] at hfx
      subst hfx
      exact ⟨x, hx, h1, h2⟩
    · rw [if_neg hc] at hfx
      subst hfx
      exact ⟨x, hx, h1, h2⟩
  · rintro ⟨l, hl, h1, h2⟩
    refine ⟨_, List.mem_map_of_mem _ hl, ?_, ?_⟩
    · split <;> exact h1
    · split <;> exact h2

/-- The conflict-arm update preserves the ordered key of every row. -/
lemma likeKey_map_flag (A B : Nat) (sup : Bool) (l : LikeRow) :
    likeKey (if l.liker_id = A ∧ l.liked_id = B then
      { l with is_super_like := sup } else l) = likeKey l := by
  split <;> rfl

/-- The invariant only reads the likes and matches tables. -/
lemma Inv.transport {s s' : DbState} (h : Inv s) (hl : s'.likes = s.likes)
    (hm : s'.matches = s.matches) : Inv s' := by
  obtain ⟨h1, h2, h3, h4⟩ := h
  refine ⟨?_, ?_, ?_, ?_⟩
  · rw [hm]; exact h1
  · rw [hm]; exact h2
  · rw [hl]; exact h3
  · intro a b hab hba
    rw [likeExists, hl] at hab hba
    rw [hm]
    exact h4 a b hab hba

end HelperLemmas

section InvariantPreservation

/-- The like upsert preserves the reachable-state invariant. -/
lemma upsertLikeTx_ok_inv {s s' : DbState} {A B : Nat} {p : Bool}
    (hInv : Inv s) (h : upsertLikeTx s A B p = .ok s') : Inv s' := by
  obtain ⟨hOrd, hMKey, hLKey, hMut⟩ := hInv
  unfold upsertLikeTx at h
  split at h
  · next hdup =>
      simp only [Except.ok.injEq] at h
      subst h
      refine ⟨hOrd, hMKey, ?_, ?_⟩
      · rw [List.pairwise_map]
        refine hLKey.imp ?_
        intro a b hne
        simpa only [likeKey_map_flag] using hne
      · intro a b hab hba
        have hab' := (likeExistsIn_map_flag s.likes A B p a b).1 hab
        have hba' := (likeExistsIn_map_flag s.likes A B p b a).1 hba
        exact hMut a b hab' hba'
  · next hnew =>
      dsimp only at h
      split at h
      · exact absurd h (by simp)
      · next s2 heq =>
          obtain ⟨hp1, hl1, hcase⟩ := create_match_on_mutual_like_ok heq
          obtain ⟨hp2, hl2, hm2⟩ := create_like_notification_ok_fields h
          have hlikes : s'.likes = s.likes ++ [⟨s.nextId, A, B, p⟩] := by
            rw [hl2]; exact hl1
          have hsub : ∀ m ∈ s.matches, m ∈ s'.matches := by
            rw [hm2]
            rcases hcase with ⟨hm_eq, _⟩ | ⟨_, _, hm_eq⟩ <;> rw [hm_eq]
            · exact fun m hm => hm
            · exact fun m hm => List.mem_append_left _ hm
          have hcanon :
              likeExistsIn (s.likes ++ [(⟨s.nextId, A, B, p⟩ : LikeRow)]) B A →
              ∃ m ∈ s'.matches, m.user1_id = Nat.min A B ∧ m.user2_id = Nat.max A B := by
            intro hcond
            rcases hcase with ⟨hm_eq, himp⟩ | ⟨_, _, hm_eq⟩
            · obtain ⟨m, hm, hk1, hk2⟩ := himp hcond
              exact ⟨m, hsub m hm, hk1, hk2⟩
            · refine ⟨⟨s.nextId + 1, Nat.min A B, Nat.max A B⟩, ?_, rfl, rfl⟩
              rw [hm2, hm_eq]
              exact List.mem_append_right _ (List.mem_singleton_self _)
          refine ⟨?_, ?_, ?_, ?_⟩
          · -- canonical ordering of every match row
            rw [hm2]
            rcases hcase with ⟨hm_eq, _⟩ | ⟨_, _, hm_eq⟩ <;> rw [hm_eq]
            · exact hOrd
            · intro m hm
              rcases List.mem_append.1 hm with hold | hnew'
              · exact hOrd m hold
              · rcases List.mem_singleton.1 hnew' with rfl
                exact min_le_max
          · -- key-uniqueness of matches
            rw [hm2]
            rcases hcase with ⟨hm_eq, _⟩ | ⟨_, hnex, hm_eq⟩ <;> rw [hm_eq]
            · exact hMKey
            · rw [List.pairwise_append]
              refine ⟨hMKey, by simp, ?_⟩
              intro x hx y hy
              rcases List.mem_singleton.1 hy with rfl
              intro hk
              exact hnex ⟨x, hx, congrArg Prod.fst hk, congrArg Prod.snd hk⟩
          · -- key-uniqueness of likes
            rw [hlikes, List.pairwise_append]
            refine ⟨hLKey, by simp, ?_⟩
            intro x hx y hy
            rcases List.mem_singleton.1 hy with rfl
            intro hk
            exact hnew ⟨x, hx, congrArg Prod.fst hk, congrArg Prod.snd hk⟩
          · -- every mutual pair has its canonical match
            intro a b hab hba
            unfold likeExists at hab hba
            rw [hlikes] at hab hba
            rcases (likeExistsIn_append_single _ _ _ _).1 hab with hab' | ⟨h1, h2⟩
            · rcases (likeExistsIn_append_single _ _ _ _).1 hba with hba' | ⟨h1, h2⟩
              · obtain ⟨m, hm, hk⟩ := hMut a b hab' hba'
                exact ⟨m, hsub m hm, hk⟩
              · -- the (b, a) like is the freshly inserted row: A = b, B = a
                dsimp only at h1 h2
                subst h1
                subst h2
                obtain ⟨m, hm, hk1, hk2⟩ :=
                  hcanon ((likeExistsIn_append_single _ _ _ _).2 (.inl hab'))
                exact ⟨m, hm, hk1.trans (Nat.min_comm A B), hk2.trans (Nat.max_comm A B)⟩
            · -- the (a, b) like is the freshly inserted row: A = a, B = b
              dsimp only at h1 h2
              subst h1
              subst h2
              obtain ⟨m, hm, hk1, hk2⟩ := hcanon hba
              exact ⟨m, hm, hk1, hk2⟩

/-- Deleting a like preserves the reachable-state invariant. -/
lemma deleteLike_inv {s : DbState} (hInv : Inv s) (a b : Nat) :
    Inv (deleteLike s a b) := by
  obtain ⟨hOrd, hMKey, hLKey, hMut⟩ := hInv
  refine ⟨hOrd, hMKey, ?_, ?_⟩
  · exact hLKey.sublist (List.filter_sublist _)
  · intro x y hxy hyx
    have hw : ∀ u v, likeExistsIn ((deleteLike s a b).likes) u v →
        likeExistsIn s.likes u v := by
      rintro u v ⟨l, hl, h1, h2⟩
      exact ⟨l, (List.mem_filter.1 hl).1, h1, h2⟩
    exact hMut x y (hw x y hxy) (hw y x hyx)

/-- A message insert preserves the reachable-state invariant. -/
lemma insertMessageTx_ok_inv {s s' : DbState} {mid sender : Nat} {c : Text}
    (hInv : Inv s) (h : insertMessageTx s mid sender c = .ok s') : Inv s' := by
  unfold insertMessageTx at h
  obtain ⟨hp, hl, hm⟩ := create_message_notification_ok_fields h
  exact hInv.transport hl hm

/-- A profile insert preserves the reachable-state invariant. -/
lemma insertProfileTx_ok_inv {s s' : DbState} {p : ProfileRow}
    (hInv : Inv s) (h : insertProfileTx s p = .ok s') : Inv s' := by
  unfold insertProfileTx at h
  split at h
  · exact absurd h (by simp)
  · simp only [Except.ok.injEq] at h
    subst h
    exact hInv.transport rfl rfl

/-- One committed-or-rolled-back event preserves the invariant. -/
lemma inv_applyEvent (s : DbState) (e : Event) (h : Inv s) :
    Inv (applyEvent s e) := by
  unfold applyEvent
  cases e with
  | likeUpsert a b p =>
      cases he : upsertLikeTx s a b p with
      | error err => simpa [txOfEvent, he] using h
      | ok s' => simpa [txOfEvent, he] using upsertLikeTx_ok_inv h he
  | likeDelete a b => simpa [txOfEvent] using deleteLike_inv h a b
  | messageInsert mid snd c =>
      cases he : insertMessageTx s mid snd c with
      | error err => simpa [txOfEvent, he] using h
      | ok s' => simpa [txOfEvent, he] using insertMessageTx_ok_inv h he
  | profileInsert p =>
      cases he : insertProfileTx s p with
      | error err => simpa [txOfEvent, he] using h
      | ok s' => simpa [txOfEvent, he] using insertProfileTx_ok_inv h he

/-- The empty database satisfies the invariant. -/
lemma inv_init : Inv initState := by
  refine ⟨?_, ?_, ?_, ?_⟩
  · intro m hm; exact absurd hm (List.not_mem_nil m)
  · exact List.Pairwise.nil
  · exact List.Pairwise.nil
  · rintro a b ⟨l, hl, -⟩ -
    exact absurd hl (List.not_mem_nil l)

/-- Folding events from an invariant state keeps the invariant. -/
lemma foldl_inv (es : List Event) :
    ∀ s : DbState, Inv s → Inv (es.foldl applyEvent s) := by
  induction es with
  | nil => intro s hs; exact hs
  | cons e t ih => intro s hs; exact ih (applyEvent s e) (inv_applyEvent s e hs)

/-- Every reachable database state satisfies the invariant. -/
lemma inv_run (es : List Event) : Inv (run es) :=
  foldl_inv es initState inv_init

end InvariantPreservation

section CountingHelpers

/-- min/max of an ordered pair of naturals. -/
lemma min_max_eq_of_le {x y : Nat} (h : x ≤ y) :
    Nat.min x y = x ∧ Nat.max x y = y :=
  ⟨min_eq_left h, max_eq_right h⟩

/-- In a list with pairwise distinct keys, a filter whose predicate pins
the key to one value and that has a witness keeps exactly one row. -/
lemma filter_length_eq_one {α : Type} {p : α → Bool} {K : α → Nat × Nat}
    {k : Nat × Nat} {l : List α}
    (hpw : l.Pairwise (fun x y => K x ≠ K y))
    (hiff : ∀ x ∈ l, p x = true ↔ K x = k)
    (hex : ∃ x ∈ l, K x = k) : (l.filter p).length = 1 := by
  induction l with
  | nil =>
      obtain ⟨x, hx, -⟩ := hex
      exact absurd hx (List.not_mem_nil x)
  | cons hd tl ih =>
      rw [List.pairwise_cons] at hpw
      by_cases hk : K hd = k
      · have hp : p hd = true := (hiff hd (List.mem_cons_self hd tl)).2 hk
        have hnil : tl.filter p = [] := by
          rw [List.filter_eq_nil_iff]
          intro x hx hpx
          exact hpw.1 x hx
            (((hiff x (List.mem_cons_of_mem hd hx)).1 hpx).trans hk.symm).symm
        simp [List.filter_cons, hp, hnil]
      · have hp : p hd = false := by
          cases hpb : p hd with
          | false => rfl
          | true => exact absurd ((hiff hd (List.mem_cons_self hd tl)).1 hpb) hk
        simp only [List.filter_cons, hp, Bool.false_eq_true, if_false]
        apply ih hpw.2
        · intro x hx
          exact hiff x (List.mem_cons_of_mem hd hx)
        · obtain ⟨x, hx, hkx⟩ := hex
          rcases List.mem_cons.1 hx with rfl | hx'
          · exact absurd hkx hk
          · exact ⟨x, hx', hkx⟩

/-- Evaluation of the match-notification trigger when both names resolve:
two notification rows are appended. -/
lemma create_match_notification_eval (s : DbState) (M : MatchRow) (n1 n2 : Text)
    (h1 : lookupFirstName s.profiles M.user1_id = some n1)
    (h2 : lookupFirstName s.profiles M.user2_id = some n2) :
    create_match_notification s M =
      .ok ({ s with
        notifications := s.notifications ++
          [⟨s.nextId, M.user1_id, "match".toList, "It\x27s a Match! 🎉".toList,
            "You and ".toList ++ n2 ++ " liked each other!".toList,
            [("match_id", M.id), ("other_user_id", M.user2_id)]⟩] ++
          [⟨s.nextId + 1, M.user2_id, "match".toList, "It\x27s a Match! 🎉".toList,
            "You and ".toList ++ n1 ++ " liked each other!".toList,
            [("match_id", M.id), ("other_user_id", M.user1_id)]⟩],
        nextId := s.nextId + 1 + 1 }) := by
  unfold create_match_notification
  dsimp only
  rw [h1, h2]
  unfold create_notification
  dsimp only [Option.map_some']

/-- SQL LEFT plus conditional ellipsis agrees with the specified
truncation: content of at most 50 characters is kept whole with no
ellipsis, longer content is cut to 50 characters and suffixed. -/
lemma truncate50_eq (c : Text) :
    c.take 50 ++ (if c.length > 50 then "...".toList else "".toList) =
    if c.length ≤ 50 then c else c.take 50 ++ "...".toList := by
  by_cases hc : c.length ≤ 50
  · rw [if_pos hc, if_neg (by omega), List.take_of_length_le hc]
    exact List.append_nil c
  · rw [if_neg hc, if_pos (by omega)]

end CountingHelpers

section Claims

/-- C1: for all profiles A and B, whenever the directed like (A, B) and the
reciprocal like (B, A) both exist in a reachable database state, exactly
one match row exists for the unordered pair {A, B}, and that row has
user1_id = min(A, B) and user2_id = max(A, B); the match-deriver trigger
establishes existence and the UNIQUE(user1_id, user2_id) key rules out a
second row. -/
theorem mutual_likes_unique_canonical_match (es : List Event) (A B : Nat)
    (hab : likeExists (run es) A B) (hba : likeExists (run es) B A) :
    (matchesForPair (run es) A B).length = 1 ∧
    ∀ m ∈ matchesForPair (run es) A B,
      m.user1_id = Nat.min A B ∧ m.user2_id = Nat.max A B := by
  obtain ⟨hOrd, hMKey, hLKey, hMut⟩ := inv_run es
  obtain ⟨m0, hm0, hk01, hk02⟩ := hMut A B hab hba
  have hiff : ∀ m ∈ (run es).matches,
      ((m.user1_id == A && m.user2_id == B) ||
        (m.user1_id == B && m.user2_id == A)) = true ↔
      matchKey m = (Nat.min A B, Nat.max A B) := by
    intro m hm
    have hord := hOrd m hm
    constructor
    · intro hp
      simp only [Bool.or_eq_true, Bool.and_eq_true, beq_iff_eq] at hp
      rcases hp with ⟨h1, h2⟩ | ⟨h1, h2⟩
      · rw [h1, h2] at hord
        obtain ⟨hmin, hmax⟩ := min_max_eq_of_le hord
        rw [matchKey, h1, h2, hmin, hmax]
      · rw [h1, h2] at hord
        obtain ⟨hmin, hmax⟩ := min_max_eq_of_le hord
        have hminAB : Nat.min A B = B := (Nat.min_comm A B).trans hmin
        have hmaxAB : Nat.max A B = A := (Nat.max_comm A B).trans hmax
        rw [matchKey, h1, h2, hminAB, hmaxAB]
    · intro hk
      have hu1 : m.user1_id = Nat.min A B := congrArg Prod.fst hk
      have hu2 : m.user2_id = Nat.max A B := congrArg Prod.snd hk
      simp only [Bool.or_eq_true, Bool.and_eq_true, beq_iff_eq]
      rcases Nat.le_total A B with hle | hle
      · obtain ⟨hmin, hmax⟩ := min_max_eq_of_le hle
        exact .inl ⟨hu1.trans hmin, hu2.trans hmax⟩
      · obtain ⟨hmin, hmax⟩ := min_max_eq_of_le hle
        exact .inr ⟨hu1.trans ((Nat.min_comm A B).trans hmin),
          hu2.trans ((Nat.max_comm A B).trans hmax)⟩
  constructor
  · unfold matchesForPair
    apply filter_length_eq_one hMKey hiff
    refine ⟨m0, hm0, ?_⟩
    rw [matchKey, hk01, hk02]
  · intro m hm
    unfold matchesForPair at hm
    obtain ⟨hmm, hmp⟩ := List.mem_filter.1 hm
    have hk := (hiff m hmm).1 hmp
    exact ⟨congrArg Prod.fst hk, congrArg Prod.snd hk⟩

/-- Witness for C1 at a concrete event sequence: two profiles like each
other and exactly one match row for the pair results. -/
theorem mutual_likes_unique_canonical_match_witness :
    likeExists (run exC1events) 1 2 ∧ likeExists (run exC1events) 2 1 ∧
    (matchesForPair (run exC1events) 1 2).length = 1 :=
  ⟨by decide, by decide,
    (mutual_likes_unique_canonical_match exC1events 1 2 (by decide) (by decide)).1⟩

/-- C2: the match-deriver step is idempotent — when the canonical match for
the pair of the new like already exists, re-evaluating the mutual-like condition
is a conflict-ignore no-op: no error is raised and the whole state (in
particular the matches table) is unchanged. -/
theorem match_deriver_idempotent (s : DbState) (nl : LikeRow)
    (h : ∃ m ∈ s.matches, m.user1_id = Nat.min nl.liker_id nl.liked_id ∧
         m.user2_id = Nat.max nl.liker_id nl.liked_id) :
    create_match_on_mutual_like s nl = .ok s := by
  unfold create_match_on_mutual_like
  split
  · unfold insertMatchWithTrigger
    rw [if_pos h]
  · rfl

/-- Witness for C2 at a concrete state: the deriver re-run for the reverse
like of an already-matched pair returns the state unchanged. -/
theorem match_deriver_idempotent_witness :
    (∃ m ∈ exC2state.matches,
        m.user1_id = Nat.min exC2like.liker_id exC2like.liked_id ∧
        m.user2_id = Nat.max exC2like.liker_id exC2like.liked_id) ∧
    create_match_on_mutual_like exC2state exC2like = .ok exC2state :=
  ⟨by decide, match_deriver_idempotent exC2state exC2like (by decide)⟩

/-- C3 counterexample: a like insert whose reciprocal did not yet exist —
the self-like of user 1 into a state with no likes — nevertheless creates a
match row (and three notifications instead of one), because the AFTER
reciprocity check of the trigger sees the row the insert just added. -/
theorem like_without_reciprocal_cex :
    (¬ likeExists exC3state 1 1) ∧
    (upsertLikeTx exC3state 1 1 false).toOption.map
      (fun t => (t.matches.length, t.notifications.length)) = some (1, 3) := by
  decide

/-- C3 (amended with A ≠ B): for every like insert by A for B with A ≠ B
whose reciprocal like does not yet exist, no match row is created, and
exactly one notification is created, addressed to B, with type super_like
or like according to the flag, the fixed title for that type, a message
interpolating the first name of A, and a payload holding the id of A and the like
id. -/
theorem like_without_reciprocal_notifies (s : DbState) (A B : Nat) (sup : Bool)
    (n : Text) (hne : A ≠ B)
    (hnew : ¬ likeExists s A B) (hnorecip : ¬ likeExists s B A)
    (hname : lookupFirstName s.profiles A = some n) :
    ∃ s', upsertLikeTx s A B sup = .ok s' ∧
      s'.matches = s.matches ∧
      s'.notifications = s.notifications ++
        [⟨s.nextId + 1, B,
          (if sup then "super_like".toList else "like".toList),
          (if sup then "Super Like!".toList else "New Like!".toList),
          n ++ (if sup then " super liked you!".toList else " liked you!".toList),
          [("user_id", A), ("like_id", s.nextId)]⟩] := by
  have hnew' : ¬ ∃ l ∈ s.likes, l.liker_id = A ∧ l.liked_id = B := hnew
  have hrecip : ¬ ∃ l ∈ s.likes ++ [(⟨s.nextId, A, B, sup⟩ : LikeRow)],
      l.liker_id = B ∧ l.liked_id = A := by
    rintro ⟨l, hl, h1, h2⟩
    rcases List.mem_append.1 hl with hL | hr
    · exact hnorecip ⟨l, hL, h1, h2⟩
    · rcases List.mem_singleton.1 hr with rfl
      exact hne h1
  have hstep : create_match_on_mutual_like
      { s with likes := s.likes ++ [⟨s.nextId, A, B, sup⟩], nextId := s.nextId + 1 }
      ⟨s.nextId, A, B, sup⟩ =
      .ok ({ s with likes := s.likes ++ [⟨s.nextId, A, B, sup⟩], nextId := s.nextId + 1 }) := by
    unfold create_match_on_mutual_like
    dsimp only
    rw [if_neg hrecip]
  unfold upsertLikeTx
  rw [if_neg hnew']
  dsimp only
  rw [hstep]
  unfold create_like_notification
  dsimp only
  rw [hname]
  unfold create_notification
  dsimp only [Option.map_some']
  exact ⟨_, rfl, rfl, rfl⟩

/-- Witness for the amended C3 at a concrete state: user 1 ("Ava") likes
user 2 with no reciprocal like present. -/
theorem like_without_reciprocal_notifies_witness :
    (1 : Nat) ≠ 2 ∧ (¬ likeExists exC3state 1 2) ∧ (¬ likeExists exC3state 2 1) ∧
    lookupFirstName exC3state.profiles 1 = some "Ava".toList ∧
    ∃ s', upsertLikeTx exC3state 1 2 false = .ok s' ∧
      s'.matches = exC3state.matches ∧
      s'.notifications = exC3state.notifications ++
        [⟨exC3state.nextId + 1, 2,
          (if false then "super_like".toList else "like".toList),
          (if false then "Super Like!".toList else "New Like!".toList),
          "Ava".toList ++
            (if false then " super liked you!".toList else " liked you!".toList),
          [("user_id", 1), ("like_id", exC3state.nextId)]⟩] :=
  ⟨by decide, by decide, by decide, by decide,
    like_without_reciprocal_notifies exC3state 1 2 false "Ava".toList
      (by decide) (by decide) (by decide) (by decide)⟩

/-- C4: for every match row inserted with participants P1 and P2 (whose
names resolve), the match-notification trigger creates exactly two
notifications of type match, one addressed to P1 whose message references
the first name of P2 and one addressed to P2 whose message references the
first name of P1, each carrying the match id and the id of the other participant in
its payload. -/
theorem match_insert_two_notifications (s : DbState) (M : MatchRow) (n1 n2 : Text)
    (h1 : lookupFirstName s.profiles M.user1_id = some n1)
    (h2 : lookupFirstName s.profiles M.user2_id = some n2) :
    ∃ s', create_match_notification s M = .ok s' ∧
      s'.likes = s.likes ∧ s'.matches = s.matches ∧
      s'.notifications = s.notifications ++
        [⟨s.nextId, M.user1_id, "match".toList, "It\x27s a Match! 🎉".toList,
          "You and ".toList ++ n2 ++ " liked each other!".toList,
          [("match_id", M.id), ("other_user_id", M.user2_id)]⟩,
         ⟨s.nextId + 1, M.user2_id, "match".toList, "It\x27s a Match! 🎉".toList,
          "You and ".toList ++ n1 ++ " liked each other!".toList,
          [("match_id", M.id), ("other_user_id", M.user1_id)]⟩] := by
  rw [create_match_notification_eval s M n1 n2 h1 h2]
  refine ⟨_, rfl, rfl, rfl, ?_⟩
  dsimp only
  rw [List.append_assoc]
  rfl

/-- Witness for C4 at a concrete state: the match between "Cara" and "Dan"
produces exactly two match notifications addressed to its participants. -/
theorem match_insert_two_notifications_witness :
    ∃ s', create_match_notification exC4state exC4match = .ok s' ∧
      s'.notifications.map (fun nr => nr.user_id) = [3, 4] := by
  obtain ⟨s', he, -, -, hn⟩ :=
    match_insert_two_notifications exC4state exC4match
      "Cara".toList "Dan".toList (by decide) (by decide)
  refine ⟨s', he, ?_⟩
  rw [hn]
  rfl

/-- C5: for every message insert into a match whose sender is a participant
(and whose name resolves), exactly one notification of type message is
created, addressed to the other participant; its text is the name of the sender,
a colon and a space, then the first 50 characters of the content, followed
by an ellipsis exactly when the content exceeds 50 characters, while
content of at most 50 characters is reproduced unchanged. -/
theorem message_insert_notifies_other (s : DbState) (mid S : Nat) (c : Text)
    (M : MatchRow) (n : Text)
    (hM : s.matches.find? (fun m => m.id == mid) = some M)
    (_hS : S = M.user1_id ∨ S = M.user2_id)
    (hname : lookupFirstName s.profiles S = some n) :
    ∃ s', insertMessageTx s mid S c = .ok s' ∧
      s'.likes = s.likes ∧ s'.matches = s.matches ∧
      s'.notifications = s.notifications ++
        [⟨s.nextId + 1, (if M.user1_id = S then M.user2_id else M.user1_id),
          "message".toList, "New Message".toList,
          n ++ ": ".toList ++
            (if c.length ≤ 50 then c else c.take 50 ++ "...".toList),
          [("match_id", mid), ("sender_id", S), ("message_id", s.nextId)]⟩] := by
  unfold insertMessageTx create_message_notification
  dsimp only
  rw [hM]
  dsimp only
  rw [hname]
  by_cases hu : M.user1_id = S
  · rw [if_pos hu]
    dsimp only
    unfold create_notification
    dsimp only [Option.map_some']
    refine ⟨_, rfl, rfl, rfl, ?_⟩
    rw [if_pos hu]
    simp only [List.append_assoc, truncate50_eq]
  · rw [if_neg hu]
    dsimp only
    unfold create_notification
    dsimp only [Option.map_some']
    refine ⟨_, rfl, rfl, rfl, ?_⟩
    rw [if_neg hu]
    simp only [List.append_assoc, truncate50_eq]

/-- Witness for C5 at a concrete state: "Eli" (user 1) sends a 78-character
message in the match with user 2; one notification goes to user 2 with the
first 50 characters and an ellipsis. -/
theorem message_insert_notifies_other_witness :
    ∃ s', insertMessageTx exC5state 0 1 exC5content = .ok s' ∧
      s'.notifications.map (fun nr => (nr.user_id, nr.message)) =
        [(2, "Eli: Hello there, this is a moderately long greeting th...".toList)] := by
  obtain ⟨s', he, -, -, hn⟩ :=
    message_insert_notifies_other exC5state 0 1 exC5content ⟨0, 1, 2⟩
      "Eli".toList (by decide) (.inl (by decide)) (by decide)
  refine ⟨s', he, ?_⟩
  rw [hn]
  rfl

/-- C6 counterexample: a message into the match between users 1 and 2, sent
by user 3 who is not a participant, still produces one notification,
addressed to user 1 — the fanout does not fall silent. -/
theorem message_nonparticipant_cex :
    exC6state.notifications = [] ∧
    exC6state.matches.map (fun m => (m.user1_id, m.user2_id)) = [(1, 2)] ∧
    (insertMessageTx exC6state 0 3 "hi".toList).toOption.map
      (fun t => t.notifications.map (fun nr => nr.user_id)) = some [1] := by
  decide

/-- C6 (amended): when the sender is not a participant of the target match
(in particular user1_id ≠ S, and whose name resolves), the trigger still
emits exactly one notification, addressed to the user1_id of the match. -/
theorem message_nonparticipant_notifies (s : DbState) (mid S : Nat) (c : Text)
    (M : MatchRow) (n : Text)
    (hM : s.matches.find? (fun m => m.id == mid) = some M)
    (h1 : M.user1_id ≠ S) (_h2 : M.user2_id ≠ S)
    (hname : lookupFirstName s.profiles S = some n) :
    ∃ s', insertMessageTx s mid S c = .ok s' ∧
      s'.notifications = s.notifications ++
        [⟨s.nextId + 1, M.user1_id, "message".toList, "New Message".toList,
          n ++ ": ".toList ++ c.take 50 ++
            (if c.length > 50 then "...".toList else "".toList),
          [("match_id", mid), ("sender_id", S), ("message_id", s.nextId)]⟩] := by
  unfold insertMessageTx create_message_notification
  dsimp only
  rw [hM]
  dsimp only
  rw [hname, if_neg h1]
  dsimp only
  unfold create_notification
  dsimp only [Option.map_some']
  exact ⟨_, rfl, rfl⟩

/-- Witness for the amended C6: non-participant user 3 ("Ivy") messages the
match of users 1 and 2; one notification is created, addressed to user 1. -/
theorem message_nonparticipant_notifies_witness :
    ∃ s', insertMessageTx exC6state 0 3 "hey".toList = .ok s' ∧
      s'.notifications.map (fun nr => nr.user_id) = [1] := by
  obtain ⟨s', he, hn⟩ :=
    message_nonparticipant_notifies exC6state 0 3 "hey".toList ⟨0, 1, 2⟩
      "Ivy".toList (by decide) (by decide) (by decide) (by decide)
  refine ⟨s', he, ?_⟩
  rw [hn]
  rfl

/-- C7 counterexample: with no profile rows at all (so the name of the liker is
unresolvable), a like insert does not degrade to a notification naming
"Someone" — the fanout trigger builds a NULL message, violates the NOT
NULL constraint of notifications.message, and the like insert itself
aborts with an error. -/
theorem fanout_placeholder_cex :
    upsertLikeTx initState 1 2 false = .error .notNullViolation := by
  rfl

/-- C7 (amended): the "Someone" placeholder lives only in the client-side
banner layer — its message substitutes "Someone" whenever the liker
profile cannot be resolved — while the database fanout trigger, faced with
an unresolvable name, raises a NOT NULL violation that aborts the
triggering insert (a situation the schema foreign keys keep unreachable
in the database itself). -/
theorem fanout_placeholder_amended (s : DbState) (lk : LikeRow) (sup : Bool)
    (hname : lookupFirstName s.profiles lk.liker_id = none) :
    clientLikeBannerMessage none sup =
      "Someone ".toList ++
        (if sup then "super liked".toList else "liked".toList) ++ " you!".toList ∧
    create_like_notification s lk = .error .notNullViolation := by
  constructor
  · unfold clientLikeBannerMessage jsOrElse
    rfl
  · unfold create_like_notification
    dsimp only
    rw [hname]
    rfl

/-- Witness for the amended C7: in the empty database user 1 has no
profile; the banner text says "Someone liked you!" and the trigger
errors. -/
theorem fanout_placeholder_amended_witness :
    lookupFirstName initState.profiles 1 = none ∧
    (clientLikeBannerMessage none false =
      "Someone ".toList ++
        (if false then "super liked".toList else "liked".toList) ++ " you!".toList ∧
     create_like_notification initState ⟨0, 1, 2, false⟩ =
       .error .notNullViolation) :=
  ⟨by decide, fanout_placeholder_amended initState ⟨0, 1, 2, false⟩ false (by decide)⟩

/-- C8 counterexample: a self-like by user 7 into a state with no likes and
no matches makes the reciprocity check of the deriver fire on the row the insert
just added, creating the degenerate match row (7, 7). -/
theorem self_like_cex :
    exC8state.matches = [] ∧
    (upsertLikeTx exC8state 7 7 false).toOption.map
      (fun t => t.matches.map (fun m => (m.user1_id, m.user2_id))) = some [(7, 7)] := by
  decide

/-- C8 (amended): when the deriver runs for a freshly inserted self-like
(the post-insert likes table contains the row, as the AFTER trigger sees
it), its reciprocity check does trigger — satisfied by that very row — and,
when no (A, A) match exists yet and the name of A resolves, a match row with
user1_id = user2_id = A is appended. -/
theorem self_like_fires_deriver (s : DbState) (nl : LikeRow) (n : Text)
    (hself : nl.liker_id = nl.liked_id) (hmem : nl ∈ s.likes)
    (hnm : ¬ ∃ m ∈ s.matches, m.user1_id = nl.liker_id ∧ m.user2_id = nl.liker_id)
    (hname : lookupFirstName s.profiles nl.liker_id = some n) :
    ∃ s', create_match_on_mutual_like s nl = .ok s' ∧
      ∃ m ∈ s'.matches, m.user1_id = nl.liker_id ∧ m.user2_id = nl.liker_id := by
  have hmin : Nat.min nl.liker_id nl.liked_id = nl.liker_id := by
    rw [← hself]; exact min_eq_left (Nat.le_refl _)
  have hmax : Nat.max nl.liker_id nl.liked_id = nl.liker_id := by
    rw [← hself]; exact max_eq_right (Nat.le_refl _)
  have hcond : ∃ l ∈ s.likes, l.liker_id = nl.liked_id ∧ l.liked_id = nl.liker_id :=
    ⟨nl, hmem, hself, hself.symm⟩
  unfold create_match_on_mutual_like
  rw [if_pos hcond, hmin, hmax]
  unfold insertMatchWithTrigger
  rw [if_neg hnm]
  rw [create_match_notification_eval ({ s with «matches» := s.matches ++ [⟨s.nextId, nl.liker_id, nl.liker_id⟩], nextId := s.nextId + 1 }) ⟨s.nextId, nl.liker_id, nl.liker_id⟩ n n hname hname]
  refine ⟨_, rfl, ⟨s.nextId, nl.liker_id, nl.liker_id⟩, ?_, rfl, rfl⟩
  exact List.mem_append_right _ (List.mem_singleton_self _)

/-- Witness for the amended C8: user 7 ("Gil") has a self-like row; the
deriver creates the (7, 7) match. -/
theorem self_like_fires_deriver_witness :
    ((⟨0, 7, 7, false⟩ : LikeRow) ∈ exC8postInsert.likes) ∧
    ∃ s', create_match_on_mutual_like exC8postInsert ⟨0, 7, 7, false⟩ = .ok s' ∧
      ∃ m ∈ s'.matches, m.user1_id = 7 ∧ m.user2_id = 7 :=
  ⟨by decide,
    self_like_fires_deriver exC8postInsert ⟨0, 7, 7, false⟩ "Gil".toList
      (by decide) (by decide) (by decide) (by decide)⟩

/-- C9: a second like from A to B (in any reachable state that already has
the (A, B) like row) goes through the conflict arm of the upsert: the result
commits, the likes table keeps exactly one row for the ordered pair (A, B)
and the same number of rows overall — only the flag of the existing row can
change — and because no insert happened, neither the match deriver nor the
like-notification trigger fires again: matches and notifications are
unchanged. -/
theorem repeat_like_upsert_no_refire (es : List Event) (A B : Nat) (sup : Bool)
    (hdup : likeExists (run es) A B) :
    ∃ s', upsertLikeTx (run es) A B sup = .ok s' ∧
      (s'.likes.filter (fun l => l.liker_id == A && l.liked_id == B)).length = 1 ∧
      s'.likes.length = (run es).likes.length ∧
      s'.matches = (run es).matches ∧
      s'.notifications = (run es).notifications := by
  obtain ⟨-, -, hLKey, -⟩ := inv_run es
  have hdup' : ∃ l ∈ (run es).likes, l.liker_id = A ∧ l.liked_id = B := hdup
  unfold upsertLikeTx
  rw [if_pos hdup']
  refine ⟨_, rfl, ?_, ?_, rfl, rfl⟩
  · dsimp only
    have hpw' : ((run es).likes.map (fun l =>
        if l.liker_id = A ∧ l.liked_id = B then { l with is_super_like := sup }
        else l)).Pairwise (fun l1 l2 => likeKey l1 ≠ likeKey l2) := by
      rw [List.pairwise_map]
      refine hLKey.imp ?_
      intro a b hne
      simpa only [likeKey_map_flag] using hne
    have hiff' : ∀ x ∈ (run es).likes.map (fun l =>
        if l.liker_id = A ∧ l.liked_id = B then { l with is_super_like := sup }
        else l), (x.liker_id == A && x.liked_id == B) = true ↔ likeKey x = (A, B) := by
      intro x _
      simp [likeKey, Bool.and_eq_true, beq_iff_eq, Prod.ext_iff]
    have hex' : ∃ x ∈ (run es).likes.map (fun l =>
        if l.liker_id = A ∧ l.liked_id = B then { l with is_super_like := sup }
        else l), likeKey x = (A, B) := by
      obtain ⟨l, hl, h1, h2⟩ := hdup'
      refine ⟨_, List.mem_map_of_mem _ hl, ?_⟩
      rw [likeKey_map_flag, likeKey, h1, h2]
    exact filter_length_eq_one hpw' hiff' hex'
  · dsimp only
    simp

/-- Witness for C9: after "Jay" (user 1) has liked user 2, a repeated
super-like upsert commits, keeps one (1, 2) like row, the same row count,
and fires no match and no notification. -/
theorem repeat_like_upsert_no_refire_witness :
    likeExists (run exC9events) 1 2 ∧
    ∃ s', upsertLikeTx (run exC9events) 1 2 true = .ok s' ∧
      (s'.likes.filter (fun l => l.liker_id == 1 && l.liked_id == 2)).length = 1 ∧
      s'.likes.length = (run exC9events).likes.length ∧
      s'.matches = (run exC9events).matches ∧
      s'.notifications = (run exC9events).notifications :=
  ⟨by decide, repeat_like_upsert_no_refire exC9events 1 2 true (by decide)⟩

/-- C10: the discovery-screen fetch never returns the profile of the requesting user
own profile, never returns a profile that user has already liked, and
returns at most 10 profiles. -/
theorem fetchProfiles_spec (s : DbState) (uid : Nat) :
    (∀ P ∈ fetchProfiles s uid, P.id ≠ uid ∧
      ¬ ∃ l ∈ s.likes, l.liker_id = uid ∧ l.liked_id = P.id) ∧
    (fetchProfiles s uid).length ≤ 10 := by
  constructor
  · intro P hP
    unfold fetchProfiles at hP
    dsimp only at hP
    have hP' := List.take_subset _ _ hP
    split at hP'
    · next hc =>
        obtain ⟨hb, hq⟩ := List.mem_filter.1 hP'
        obtain ⟨hpmem, hne⟩ := List.mem_filter.1 hb
        constructor
        · simpa using hne
        · rintro ⟨l, hl, h1, h2⟩
          have hmem : P.id ∈ (s.likes.filter
              (fun l => l.liker_id == uid)).map (fun l => l.liked_id) :=
            List.mem_map.2 ⟨l, List.mem_filter.2 ⟨hl, by simp [h1]⟩, h2⟩
          simp only [Bool.not_eq_true'] at hq
          simp at hq
          exact hq l hl h1 h2
    · next hc =>
        obtain ⟨hpmem, hne⟩ := List.mem_filter.1 hP'
        constructor
        · simpa using hne
        · rintro ⟨l, hl, h1, h2⟩
          apply hc
          have hmem : l.liked_id ∈ (s.likes.filter
              (fun l => l.liker_id == uid)).map (fun l => l.liked_id) :=
            List.mem_map.2 ⟨l, List.mem_filter.2 ⟨hl, by simp [h1]⟩, rfl⟩
          exact List.length_pos_of_mem hmem
  · unfold fetchProfiles
    dsimp only
    rw [List.length_take]
    exact min_le_left _ _

/-- Witness for C10 at a concrete state: for user 1 — who already liked
user 2 — the fetch returns user 3, never user 1 itself or user 2. -/
theorem fetchProfiles_spec_witness :
    ((⟨3, "Wes".toList⟩ : ProfileRow) ∈ fetchProfiles exC10state 1) ∧
    ((3 : Nat) ≠ 1 ∧
      ¬ ∃ l ∈ exC10state.likes, l.liker_id = 1 ∧ l.liked_id = 3) ∧
    (fetchProfiles exC10state 1).length ≤ 10 :=
  ⟨by decide,
    (fetchProfiles_spec exC10state 1).1 ⟨3, "Wes".toList⟩ (by decide),
    (fetchProfiles_spec exC10state 1).2⟩

end Claims

end DatingApp
